import Mathlib

set_option maxHeartbeats 1000000

/-!
Shallow embedding of the orchestration core of the `win_app` repository
(`src/network/connection.py`, `src/files/manager.py`,
`src/gui/result_handler.py`, `src/gui/file_processor.py`,
`src/storage/database.py`).

Remote commands, the SSH transport and the on-disk JSON files are modelled
by explicit environments/oracles: each remote command's observable outcome
(its decoded stdout, or the fact that it raised) is a field of an
environment record, and the Python objects' mutable attributes become an
explicit state record threaded through the functions.  Wall-clock sleeps,
logging and GUI updates are side effects with no bearing on the claims and
are dropped.  Python strings are Lean `String`s; Python string comparison
(`<`/`>`, code-point lexicographic) is modelled by the executable `pyLt`
below.
-/

/- ===================== generic string helpers ===================== -/

/-- Whether the first character list is an initial segment of the second. -/
def leadsWith : List Char → List Char → Bool
  | [], _ => true
  | _ :: _, [] => false
  | a :: as, b :: bs => a == b && leadsWith as bs

/-- Whether the first character list occurs contiguously in the second. -/
def occursIn (pat : List Char) : List Char → Bool
  | [] => leadsWith pat []
  | c :: cs => leadsWith pat (c :: cs) || occursIn pat cs

/-- Python `pat in s` substring test. -/
def strContains (s pat : String) : Bool := occursIn pat.data s.data

/-- Splitting of a character list at every character satisfying `p`,
keeping empty pieces — Python `str.split(sep)` for a one-character `sep`
when `p` tests for `sep`. -/
def splitWhen (p : Char → Bool) : List Char → List (List Char)
  | [] => [[]]
  | c :: cs =>
    match splitWhen p cs, p c with
    | r, true => [] :: r
    | [], false => [[c]]
    | h :: t, false => (c :: h) :: t

/-- Python `s.split(sep)` for a one-character separator. -/
def pySplitOn (s : String) (sep : Char) : List String :=
  (splitWhen (fun c => c == sep) s.data).map String.mk

/-- Python `s.split()`: split on whitespace runs, dropping empty pieces. -/
def pySplitWs (s : String) : List String :=
  ((splitWhen Char.isWhitespace s.data).map String.mk).filter (fun t => t != "")

/-- Python `s.strip()`: drop leading and trailing whitespace. -/
def pyStrip (s : String) : String :=
  String.mk (((s.data.dropWhile Char.isWhitespace).reverse.dropWhile Char.isWhitespace).reverse)

/-- Lexicographic comparison of character lists by code point, mirroring
Python `str.__lt__`. -/
def charListLt : List Char → List Char → Bool
  | [], [] => false
  | [], _ :: _ => true
  | _ :: _, [] => false
  | a :: as, b :: bs => if a < b then true else if b < a then false else charListLt as bs

/-- Python `a < b` on strings (code-point lexicographic). -/
def pyLt (a b : String) : Bool := charListLt a.data b.data

/-- Python `s.lower()`, modelled character-wise (`Char.toLower` maps `A`-`Z`
to `a`-`z` and leaves everything else unchanged, which agrees with Python on
the ASCII data this program compares). -/
def pyToLower (s : String) : String := String.mk (s.data.map Char.toLower)

/- ===================== C1: outcome normalization ===================== -/

/-- One entry of a downloaded result document's `test_results` list.  Only
the keys the orchestration core reads are modelled; a `none` field is an
absent key. -/
structure TRCase where
  status : Option String
  service : Option String
  action : Option String
  details : Option String
deriving DecidableEq

/-- A downloaded result document (the parsed JSON object).  `none` is an
absent key; `test_results = some []` is a present-but-empty list, which the
code treats like an absent one (Python truthiness). -/
structure ResultDoc where
  overall_result : Option String
  pass : Option Bool
  test_results : Option (List TRCase)
  service : Option String
  action : Option String
  details : Option String
deriving DecidableEq

/-- Outcome normalization as implemented in
`file_processor.py::_download_and_process_result` (lines 446-461) and
duplicated verbatim in `_process_downloaded_result` (lines 480-497):
`overall_result = result_data.get("overall_result", "Unknown")`; if that
is falsy (empty) or `"Unknown"`, fall back to the boolean `pass` key,
then to the conjunction of the `test_results` statuses
(case-insensitive `"pass"`), then to `"Pass"`. -/
def normalizeOutcome (doc : ResultDoc) : String :=
  if doc.overall_result.getD "Unknown" = "" ∨ doc.overall_result.getD "Unknown" = "Unknown" then
    match doc.pass with
    | some b => if b then "Pass" else "Fail"
    | none =>
      -- Python: `if test_cases: ... else: "Pass"`; the empty/absent case
      -- is written first here.
      if (doc.test_results.getD []).isEmpty then "Pass"
      else if (doc.test_results.getD []).all (fun c => pyToLower (c.status.getD "") == "pass") then "Pass"
      else "Fail"
  else doc.overall_result.getD "Unknown"

/-- Claim-side restatement of C1's normalization rule, written from the
claim's words: a present, non-empty, non-`"Unknown"` `overall_result` is
used as-is; otherwise a boolean `pass` field decides; otherwise a
non-empty `test_results` list decides by case-insensitive unanimity;
otherwise the result defaults to `"Pass"`. -/
def normalizeFallbackClaim (doc : ResultDoc) : String :=
  match doc.pass with
  | some true => "Pass"
  | some false => "Fail"
  | none =>
    match doc.test_results with
    | some (c :: cs) =>
      if (c :: cs).all (fun k => pyToLower (k.status.getD "") == "pass") then "Pass" else "Fail"
    | _ => "Pass"

/-- Claim-side restatement of C1's top-level case split. -/
def normalizeOutcomeClaim (doc : ResultDoc) : String :=
  match doc.overall_result with
  | some s => if s ≠ "" ∧ s ≠ "Unknown" then s else normalizeFallbackClaim doc
  | none => normalizeFallbackClaim doc

/- ===================== C3: impact classifier ===================== -/

/-- One entry of a TestDefinition's `test_cases` list as read by
`manager.py::analyze_test_impacts`: `service` and `action` default to `""`
when the key is absent; `command` models `str(params.get("command", ""))`,
with `""` also covering a non-dict `params` (both are skipped by the
`if cmd:` guard). -/
structure TestCase where
  service : String
  action : String
  command : String
deriving DecidableEq

/-- The three accumulated network-impact flags. -/
structure Impacts where
  affects_wan : Bool
  affects_lan : Bool
  restarts_network : Bool
deriving DecidableEq

/-- Body of the `for test in test_cases` loop of
`manager.py::analyze_test_impacts` (lines 44-70): a service/action chain
(network-restart detection, then WAN keywords, then LAN keywords) followed
by an independent check of `params["command"]`. -/
def impactStep (imp : Impacts) (t : TestCase) : Impacts :=
  let service := pyToLower t.service
  let action := pyToLower t.action
  let imp1 :=
    if strContains service "network" &&
        (strContains action "restart" || strContains action "reset" || strContains action "reboot") then
      { imp with restarts_network := true, affects_wan := true, affects_lan := true }
    else if ["wan", "internet", "ppp", "dhcp", "modem"].any (fun k => strContains service k) then
      { imp with affects_wan := true }
    else if ["lan", "network", "interface", "wifi", "ethernet"].any (fun k => strContains service k) then
      { imp with affects_lan := true }
    else imp
  let cmd := pyToLower t.command
  if (!(cmd == "")) && strContains cmd "restart" &&
      ["network", "wan", "firewall", "interface"].any (fun k => strContains cmd k) then
    { imp1 with restarts_network := true, affects_wan := true, affects_lan := true }
  else imp1

/-- `manager.py::analyze_test_impacts`: fold of `impactStep` over the test
cases starting from all-false flags.  The function's swallowed-exception
path is not modelled: the embedding is total, so no exception can occur. -/
def analyze_test_impacts (cases : List TestCase) : Impacts :=
  cases.foldl impactStep ⟨false, false, false⟩

/-- Concrete test-case list used to witness C3 (a network restart). -/
def c3CasesA : List TestCase := [⟨"network", "restart", ""⟩]

/-- Concrete test-case list used to witness C3 (an unrelated later case). -/
def c3CasesB : List TestCase := [⟨"probe", "status", ""⟩]

/- ============== connection.py: SSH transport (C4, C7, C10) ============== -/

/-- Mutable attributes of `connection.py::SSHConnection`.  `hasClient`
models `self.client is not None`. -/
structure ConnState where
  hasClient : Bool
  connected : Bool
  hostname : Option String
  username : Option String
  password : Option String
deriving DecidableEq

/-- `connection.py::disconnect` (lines 66-78): best-effort close clearing
every session attribute.  In the embedding closing has no observable
failure, so the swallowed-exception path cannot fire. -/
def disconnect (_st : ConnState) : ConnState :=
  { hasClient := false, connected := false, hostname := none, username := none, password := none }

/-- Observable remote outcomes of one `connect` call: whether the
transport-level `paramiko` connect succeeds, and the decoded stdout of the
canary `echo` command (`none` models an exception while running it). -/
structure ConnectEnv where
  connOk : Bool
  canary : Option String
deriving DecidableEq

/-- `connection.py::connect` (lines 23-64): disconnect any prior session,
store the credentials, create a fresh client, connect, then require the
canary echo to come back as `connection_test`.  The whole body sits in a
`try/except Exception: return False`, so the embedding is total and covers
every return path; no exception reaches the caller. -/
def connect (st : ConnState) (host user pw : String) (env : ConnectEnv) : Bool × ConnState :=
  let st1 := disconnect st
  let st2 : ConnState :=
    { hasClient := true, connected := st1.connected,
      hostname := some host, username := some user, password := some pw }
  if !env.connOk then (false, st2)
  else
    match env.canary with
    | none => (false, st2)
    | some out =>
      if pyStrip out == "connection_test" then (true, { st2 with connected := true })
      else (false, st2)

/-- `connection.py::is_connected` (lines 80-94): trust the cached flag and
client only negatively; otherwise run the keepalive canary, whose decoded
stdout is the `canary` argument (`none` for an exception, which marks the
session not-connected). -/
def is_connected (st : ConnState) (canary : Option String) : Bool × ConnState :=
  if !st.connected || !st.hasClient then (false, st)
  else
    match canary with
    | none => (false, { st with connected := false })
    | some out => (pyStrip out == "keepalive", st)

/-- Outcome of one `exec_command` attempt inside `execute_command`: decoded
stdout, stderr and exit status, or the message of a raised exception. -/
inductive ExecOutcome
  | ok (stdoutData stderrData : String) (exitCode : Int)
  | exn (msg : String)
deriving DecidableEq

/-- Environment of one iteration of the retry loop of `execute_command`:
the keepalive canary consumed by its `is_connected()` guard, then the
command execution attempt. -/
structure IterEnv where
  canary : Option String
  exec : ExecOutcome
deriving DecidableEq

/-- `connection.py::execute_command` (lines 96-131).  `fuel` bounds the
modelled `while retry_count <= max_retries` loop; since every iteration
either returns or increments `retry_count`, three iterations suffice and
the wrapper passes 4, making the fuel-exhaustion case unreachable.  A
`none` first component models Python falling off the loop and returning
`None`, which the loop structure never does. -/
def execAux (env : Nat → IterEnv) : Nat → ConnState → Nat → Nat →
    Option (Bool × String × String) × ConnState
  | 0, st, _, _ => (none, st)
  | fuel + 1, st, i, rc =>
    if rc > 2 then (none, st)
    else
      match is_connected st (env i).canary with
      | (false, st1) => (some (false, "", "Not connected"), st1)
      | (true, st1) =>
        if !st1.hasClient then (some (false, "", "Client is None"), st1)
        else
          match (env i).exec with
          | .ok outData errData code => (some (code == 0, outData, errData), st1)
          | .exn msg =>
            if rc + 1 > 2 || !strContains (pyToLower msg) "timed out" then
              (some (false, "", msg), st1)
            else
              execAux env fuel { st1 with connected := false } (i + 1) (rc + 1)

/-- `execute_command` entry point: `retry_count = 0`. -/
def execute_command (env : Nat → IterEnv) (st : ConnState) :
    Option (Bool × String × String) × ConnState :=
  execAux env 4 st 0 0

/-- C4 environment: the first execution attempt raises a timeout-class
error and a second attempt, were one made, would succeed. -/
def c4Env : Nat → IterEnv := fun i =>
  if i == 0 then ⟨some "keepalive", .exn "Command execution error: timed out"⟩
  else ⟨some "keepalive", .ok "retried fine" "" 0⟩

/-- C4 comparison environment: identical first attempt, but the second
attempt, were one made, would fail with a distinct error. -/
def c4EnvAlt : Nat → IterEnv := fun i =>
  if i == 0 then ⟨some "keepalive", .exn "Command execution error: timed out"⟩
  else ⟨some "keepalive", .exn "second attempt error"⟩

/-- Initial session state for the C4 evaluation: connected with a live
client and stored credentials. -/
def c4State : ConnState := ⟨true, true, some "h", some "u", some "p"⟩

/-- Cached-flag-down session state used to witness C10. -/
def c10Down : ConnState := ⟨true, false, none, none, none⟩

/-- Healthy session state used to witness C10. -/
def c10Up : ConnState := ⟨true, true, some "h", some "u", some "p"⟩

/- ========== result_handler.py: result locator (C2, C6) ========== -/

/-- `os.path.basename` for the remote POSIX (`/`-separated) paths the
locator handles. -/
def basename (p : String) : String := (pySplitOn p '/').getLastD ""

/-- Timestamp suffix embedded in a result filename, as extracted at
`result_handler.py` lines 51-54 and 107-111: split the name on `_`; with at
least three parts the suffix is the second-to-last part, an underscore, and
the last part up to its first dot; otherwise nothing is extracted. -/
def extractTs (fname : String) : Option String :=
  let parts := pySplitOn fname '_'
  if 3 ≤ parts.length then
    some ((parts.getD (parts.length - 2) "") ++ "_" ++
      ((pySplitOn (parts.getLastD "") '.').headD ""))
  else none

/-- Maximum of a list of strings under Python string order — the value of
`sorted(files)[-1]` for a nonempty list, `none` for an empty one. -/
def maxString : List String → Option String
  | [] => none
  | s :: ss =>
    match maxString ss with
    | none => some s
    | some m => some (if pyLt m s then s else m)

/-- Lines 46-57 of `result_handler.py`: `latest_timestamp`, the timestamp
extracted from the lexicographically greatest path of the initial
snapshot (`sorted(list(initial_files))[-1]`). -/
def computeLatestTimestamp (initialFiles : List String) : Option String :=
  match maxString initialFiles with
  | none => none
  | some latest => extractTs (basename latest)

/-- Claim-side quantity for C2: the greatest timestamp suffix extracted
from the snapshot as a whole (over every snapshot file, not just the
lexicographically greatest path). -/
def maxTimestampSuffix (initialFiles : List String) : Option String :=
  maxString (initialFiles.filterMap (fun p => extractTs (basename p)))

/-- Strict comparison of two optional timestamps: true only when both are
present and the first is strictly below the second (Python
`lt and ts > lt`). -/
def tsLt : Option String → Option String → Bool
  | some a, some b => pyLt a b
  | _, _ => false

/-- Observable remote interactions of one iteration of the polling loop of
`result_handler.py::wait_for_result_file` (lines 59-152): `alive` is the
`is_connected()` answer, `reconnectOk` the result of the reconnect when one
is attempted, `lsOut` the stdout of `ls -lt <dir>/<pattern> | head -1`
(`none` for a failed command), `existsOk` whether the `test -f` probe
succeeded with output `exists`, `sizeRead1`/`sizeRead2` the stdouts of the
two `stat -c %s` size reads taken 1 second apart (`none` for a failed
read), and `processing` the shared cancellation flag as read at the bottom
of the iteration. -/
structure LocStep where
  alive : Bool
  reconnectOk : Bool
  lsOut : Option String
  existsOk : Bool
  sizeRead1 : Option String
  sizeRead2 : Option String
  processing : Bool
deriving DecidableEq

/-- `result_handler.py::_verify_file_ready` (lines 157-186): existence
probe, then two size reads that must both succeed, the first nonempty, and
agree after stripping. -/
def verifyFileReady (step : LocStep) : Bool :=
  step.existsOk &&
    (match step.sizeRead1 with
     | none => false
     | some s1 =>
       (!(pyStrip s1 == "")) &&
         (match step.sizeRead2 with
          | none => false
          | some s2 => pyStrip s1 == pyStrip s2))

/-- Claim-side stability condition for C6: the two size reads both
succeeded and returned the same (nonempty, stripped) size text. -/
def sizeReadsAgree (step : LocStep) : Bool :=
  match step.sizeRead1, step.sizeRead2 with
  | some s1, some s2 => (pyStrip s1 == pyStrip s2) && (!(pyStrip s1 == ""))
  | _, _ => false

/-- Result of one iteration body (lines 89-131): a stable new artifact was
returned, or the iteration hit a `continue` before the bottom of the loop,
or control fell through to the bottom (progress log, cancellation check,
sleep). -/
inductive IterOut
  | found (path fname : String)
  | skip
  | bottom
deriving DecidableEq

/-- Lines 103-118 of `wait_for_result_file`: `is_new_file` starts as
absence of the candidate path from the initial snapshot and is promoted to
true when `latest_timestamp` exists and the timestamp embedded in the
candidate name strictly exceeds it. -/
def isNewCandidate (initialFiles : List String) (latestTs : Option String)
    (fullPath fname : String) : Bool :=
  match latestTs, extractTs fname with
  | some lt, some ts => !(initialFiles.contains fullPath) || pyLt lt ts
  | _, _ => !(initialFiles.contains fullPath)

/-- Lines 89-131 of `wait_for_result_file`: take the most recently modified
matching file from the `ls` output (last whitespace-separated token),
decide whether it is new via `isNewCandidate`, and if so verify its
stability.  `os.path.join` is modelled as POSIX `/` concatenation,
matching the snapshot paths produced by the remote `find`. -/
def pollIter (resultDir : String) (initialFiles : List String)
    (latestTs : Option String) (step : LocStep) : IterOut :=
  match step.lsOut with
  | none => .skip
  | some info =>
    if pyStrip info == "" then .skip
    else
      let newestFile := (pySplitWs (pyStrip info)).getLastD ""
      let fullPath := resultDir ++ "/" ++ newestFile
      if isNewCandidate initialFiles latestTs fullPath newestFile then
        if verifyFileReady step then .found fullPath newestFile else .bottom
      else .bottom

/-- Final outcome of the locator wait: a returned artifact, the
user-cancellation exception, or the wall-clock timeout exception (reached
here when the finite trace of poll iterations is exhausted). -/
inductive LocResult
  | found (path fname : String)
  | cancelled
  | timeoutFail
deriving DecidableEq

/-- The polling loop of `wait_for_result_file` (lines 59-155) over a finite
trace of iteration environments.  `rc` is `reconnect_attempts`: a dead
connection with `rc` at the 3-attempt budget raises inside the `try`, is
swallowed by the generic `except` of line 132 and merely continues the
loop; a failed reconnect continues; a successful reconnect falls through to
the `ls` query of the same iteration.  Continues skip the bottom-of-loop
cancellation check; iterations that reach the bottom stop with the
cancellation failure when `processing` is off. -/
def waitLoop (resultDir : String) (initialFiles : List String)
    (latestTs : Option String) : List LocStep → Nat → LocResult
  | [], _ => .timeoutFail
  | step :: rest, rc =>
    if step.alive then
      match pollIter resultDir initialFiles latestTs step with
      | .found p f => .found p f
      | .skip => waitLoop resultDir initialFiles latestTs rest rc
      | .bottom =>
        if step.processing then waitLoop resultDir initialFiles latestTs rest rc
        else .cancelled
    else
      if 3 ≤ rc then waitLoop resultDir initialFiles latestTs rest rc
      else if step.reconnectOk then
        match pollIter resultDir initialFiles latestTs step with
        | .found p f => .found p f
        | .skip => waitLoop resultDir initialFiles latestTs rest (rc + 1)
        | .bottom =>
          if step.processing then waitLoop resultDir initialFiles latestTs rest (rc + 1)
          else .cancelled
      else waitLoop resultDir initialFiles latestTs rest (rc + 1)

/-- `wait_for_result_file` (lines 17-155) as observed through its returned
artifact: initial snapshot, `latest_timestamp` extraction, then the polling
loop starting with `reconnect_attempts = 0`. -/
def wait_for_result_file (resultDir : String) (initialFiles : List String)
    (steps : List LocStep) : LocResult :=
  waitLoop resultDir initialFiles (computeLatestTimestamp initialFiles) steps 0

/-- C2 snapshot: two pre-existing artifacts; the lexicographically greatest
path carries the older embedded timestamp. -/
def c2Snapshot : List String :=
  ["/res/t_20250101_000000.json", "/res/t_x_19990101_000000.json"]

/-- C2 poll iteration: the connection is up and `ls` reports the snapshot
file `t_20250101_000000.json`, which passes both size reads unchanged. -/
def c2Step : LocStep :=
  ⟨true, true, some "t_20250101_000000.json", true, some "123", some "123", true⟩

/-- C6 poll iteration: a realistic `ls -lt | head -1` line for a fresh
artifact absent from the (empty) snapshot, with agreeing size reads. -/
def c6Step : LocStep :=
  ⟨true, true, some " -rw-r--r-- 1 root root 42 Jun 5 14:37 base_20250605_141606.json",
    true, some " 42", some "42 ", true⟩

/- ========== file_processor.py: batch loop (C5) ========== -/

/-- Job display states of the file table (`update_file_status`). -/
inductive JobStatus
  | Queued
  | Sending
  | Testing
  | NetworkReset
  | Complete
  | Error
  | Failed
deriving DecidableEq

/-- Abstracted environment of one run of
`file_processor.py::_process_files` (lines 62-144): `procStatus i` is the
final table status in which `_process_single_file` (plus its per-job
exception handler) leaves job `i`, and `procPersist i` the overall result
it persists to the store for job `i` (`none` when the job fails before
persisting); `processing i` is the shared cancellation flag as read after
job `i`; `aliveAfter i` the boundary `is_connected()` answer after job
`i`; and `reconnectOk i k` the result of boundary reconnection attempt
`k` (the code makes attempts 1, 2, 3 and stops at the first success). -/
structure BatchEnv where
  procStatus : Nat → JobStatus
  procPersist : Nat → Option String
  processing : Nat → Bool
  aliveAfter : Nat → Bool
  reconnectOk : Nat → Nat → Bool

/-- The `for i, file_path in enumerate(file_paths)` loop of
`_process_files` over `n` queued jobs, starting at job `i`, threading the
job status table and the append-only persisted log.  The boundary block of
lines 86-110 runs only while a later job remains: if the session is alive,
or any of the three reconnection attempts succeeds, the loop continues
(subject to the cancellation flag); otherwise it `break`s, leaving all
later jobs untouched. -/
def processFrom (env : BatchEnv) (n : Nat) (i : Nat) (statuses : List JobStatus)
    (log : List (Nat × String)) : List JobStatus × List (Nat × String) :=
  if h : i < n then
    let statuses1 := statuses.set i (env.procStatus i)
    let log1 :=
      match env.procPersist i with
      | some r => log ++ [(i, r)]
      | none => log
    if i + 1 < n then
      if env.aliveAfter i || env.reconnectOk i 1 || env.reconnectOk i 2
          || env.reconnectOk i 3 then
        if env.processing i then processFrom env n (i + 1) statuses1 log1
        else (statuses1, log1)
      else (statuses1, log1)
    else (statuses1, log1)
  else (statuses, log)
termination_by n - i
decreasing_by omega

/-- Status table obtained by recording the abstracted per-job statuses for
the `len` jobs starting at index `i`. -/
def applyStatuses (env : BatchEnv) (statuses : List JobStatus) (i len : Nat) :
    List JobStatus :=
  (List.range' i len).foldl (fun sts j => sts.set j (env.procStatus j)) statuses

/-- Persisted-log fragment contributed by the `len` jobs starting at
index `i`. -/
def persistLog (env : BatchEnv) (i len : Nat) : List (Nat × String) :=
  (List.range' i len).filterMap (fun j => (env.procPersist j).map (fun r => (j, r)))

/-- C5 witness environment: every job completes with a persisted Pass, the
connection is found dead at every boundary and every reconnection attempt
fails. -/
def c5Env : BatchEnv :=
  { procStatus := fun _ => JobStatus.Complete
    procPersist := fun _ => some "Pass"
    processing := fun _ => true
    aliveAfter := fun _ => false
    reconnectOk := fun _ _ => false }

/- ========== database.py: per-case persistence (C8) ========== -/

/-- A per-case row as inserted into the `test_cases` table.  The
`execution_time` column, a wall-clock float, is outside the embedding. -/
structure CaseRecord where
  service : String
  action : String
  status : String
  details : String
deriving DecidableEq

/-- `os.path.splitext(name)[0]` for names with an ordinary dot extension:
everything before the final dot, the whole name when it has no dot. -/
def stripExt (name : String) : String :=
  if (pySplitOn name '.').length ≤ 1 then name
  else String.intercalate "." (pySplitOn name '.').dropLast

/-- Filename-derived defaults of `database.py::save_test_case_results`
(lines 193-199): the first `_`-separated piece of the base name as the
default service, the remaining pieces joined by `_` as the default
action. -/
def defaultServiceAction (file_name : String) : String × String :=
  ((pySplitOn (stripExt file_name) '_').headD "unknown",
    String.intercalate "_" (pySplitOn (stripExt file_name) '_').tail)

/-- Lines 203-213 of `save_test_case_results`: a case whose service is the
literal `unknown` is rewritten in place with the filename-derived
service/action and a details message synthesized from its status. -/
def adjustCase (ds da : String) (c : CaseRecord) : CaseRecord :=
  if c.service == "unknown" then
    { service := ds, action := da, status := c.status,
      details := ds ++ " " ++ da ++ " " ++
        (if c.status == "pass" then "completed successfully" else "failed") }
  else c

/-- `database.py::save_test_case_results` (lines 180-240) as observed
through the rows inserted for the given result id: the `unknown`-service
rewrite followed by the per-case inserts.  `file_name` is the one the
preceding `save_test_file_result` stored for that id (on the claimed path
that row always exists). -/
def save_test_case_results (file_name : String) (cases : List CaseRecord) :
    List CaseRecord :=
  cases.map (adjustCase (defaultServiceAction file_name).1 (defaultServiceAction file_name).2)

/-- Lines 532-540 of `file_processor.py::_process_downloaded_result`: the
synthetic case built when the downloaded document has no (or an empty)
`test_results` list, from the top-level `service`/`action`/`details` keys
and the computed overall result. -/
def syntheticCase (doc : ResultDoc) (overall : String) : CaseRecord :=
  { service := doc.service.getD "unknown"
    action := doc.action.getD ""
    status := if strContains overall "Pass" then "pass" else "fail"
    details := doc.details.getD "" }

/-- Rows persisted for a job whose downloaded document has an empty or
absent `test_results` list: exactly the synthetic case, run through the
Result Store insert path. -/
def persistEmptyCase (file_name : String) (doc : ResultDoc) (overall : String) :
    List CaseRecord :=
  save_test_case_results file_name [syntheticCase doc overall]

/-- C8 document: no top-level `service`, document-supplied `action` and
`details`, no result fields (so the computed overall result is `Pass`). -/
def c8Doc : ResultDoc :=
  { overall_result := none, pass := none, test_results := some []
    service := none, action := some "reboot", details := some "device ok" }

/-- C8 witness document: an explicit non-`unknown` service. -/
def c8DocNamed : ResultDoc :=
  { overall_result := some "Pass", pass := none, test_results := some []
    service := some "wan", action := some "check", details := some "fine" }

/- ========== manager.py: input validation (C9) ========== -/

/-- A parsed candidate TestDefinition: `test_cases = none` models a JSON
object without the `test_cases` key. -/
structure TestDoc where
  test_cases : Option (List TestCase)
deriving DecidableEq

/-- The on-disk input as `validate_json_file` observes it: missing file,
unparseable JSON (with the decoder message), or a parsed object. -/
inductive LocalFile
  | absent
  | badJson (msg : String)
  | parsed (doc : TestDoc)
deriving DecidableEq

/-- `manager.py::validate_json_file` (lines 12-31).  `TestFileManager`
holds no transport or socket, and every branch of the function touches the
local filesystem only, so the embedding is a pure function of the local
file: no remote/network operation occurs on any input. -/
def validate_json_file : LocalFile → Bool × String × Option TestDoc
  | .absent => (false, "File not found", none)
  | .badJson m => (false, "Invalid JSON: " ++ m, none)
  | .parsed d =>
    match d.test_cases with
    | none => (false, "Missing \x27test_cases\x27 section", none)
    | some _ => (true, "", some d)

/- ===================== theorems ===================== -/

/-- Each single `impactStep` only ever raises the three flags. -/
theorem impactStep_mono (imp : Impacts) (t : TestCase) :
    (imp.affects_wan = true → (impactStep imp t).affects_wan = true) ∧
    (imp.affects_lan = true → (impactStep imp t).affects_lan = true) ∧
    (imp.restarts_network = true → (impactStep imp t).restarts_network = true) := by
  refine ⟨?_, ?_, ?_⟩ <;>
    (intro h; simp only [impactStep]; repeat' split <;> simp_all)

/-- The fold of `impactStep` only ever raises the three flags. -/
theorem foldl_impactStep_mono (l : List TestCase) (imp : Impacts) :
    (imp.affects_wan = true → (l.foldl impactStep imp).affects_wan = true) ∧
    (imp.affects_lan = true → (l.foldl impactStep imp).affects_lan = true) ∧
    (imp.restarts_network = true → (l.foldl impactStep imp).restarts_network = true) := by
  induction l generalizing imp with
  | nil => exact ⟨id, id, id⟩
  | cons t ts ih =>
    refine ⟨fun h => ?_, fun h => ?_, fun h => ?_⟩ <;>
      simp only [List.foldl_cons]
    · exact (ih (impactStep imp t)).1 ((impactStep_mono imp t).1 h)
    · exact (ih (impactStep imp t)).2.1 ((impactStep_mono imp t).2.1 h)
    · exact (ih (impactStep imp t)).2.2 ((impactStep_mono imp t).2.2 h)

/-- A single `impactStep` preserves the invariant that `restarts_network`
implies both `affects_wan` and `affects_lan`. -/
theorem impactStep_coupled (imp : Impacts) (t : TestCase)
    (h : imp.restarts_network = true → imp.affects_wan = true ∧ imp.affects_lan = true) :
    (impactStep imp t).restarts_network = true →
      (impactStep imp t).affects_wan = true ∧ (impactStep imp t).affects_lan = true := by
  simp only [impactStep]
  repeat' split <;> simp_all

/-- The fold of `impactStep` preserves the `restarts_network` coupling
invariant. -/
theorem foldl_impactStep_coupled (l : List TestCase) (imp : Impacts)
    (h : imp.restarts_network = true → imp.affects_wan = true ∧ imp.affects_lan = true) :
    (l.foldl impactStep imp).restarts_network = true →
      (l.foldl impactStep imp).affects_wan = true ∧ (l.foldl impactStep imp).affects_lan = true := by
  induction l generalizing imp with
  | nil => exact h
  | cons t ts ih =>
    simp only [List.foldl_cons]
    exact ih (impactStep imp t) (impactStep_coupled imp t h)

/-- C3: impact classification folds over the test cases with all three
flags monotonically non-decreasing (a flag set by the cases of `l1` is
still set after the further cases of `l2`), and in every returned
`Impacts` value `restarts_network = true` implies `affects_wan = true`
and `affects_lan = true`. -/
theorem analyze_test_impacts_monotone (l1 l2 : List TestCase) :
    ((analyze_test_impacts l1).affects_wan = true →
      (analyze_test_impacts (l1 ++ l2)).affects_wan = true) ∧
    ((analyze_test_impacts l1).affects_lan = true →
      (analyze_test_impacts (l1 ++ l2)).affects_lan = true) ∧
    ((analyze_test_impacts l1).restarts_network = true →
      (analyze_test_impacts (l1 ++ l2)).restarts_network = true) ∧
    ((analyze_test_impacts (l1 ++ l2)).restarts_network = true →
      (analyze_test_impacts (l1 ++ l2)).affects_wan = true ∧
      (analyze_test_impacts (l1 ++ l2)).affects_lan = true) := by
  unfold analyze_test_impacts
  rw [List.foldl_append]
  refine ⟨(foldl_impactStep_mono l2 _).1, (foldl_impactStep_mono l2 _).2.1,
    (foldl_impactStep_mono l2 _).2.2, ?_⟩
  exact foldl_impactStep_coupled l2 _
    (foldl_impactStep_coupled l1 ⟨false, false, false⟩ (by simp))

/-- C3 witness: a network-restart case sets all three flags, they survive a
later unrelated case, and the coupling holds on the result. -/
theorem analyze_test_impacts_monotone_witness :
    (analyze_test_impacts (c3CasesA ++ c3CasesB)).affects_wan = true ∧
    (analyze_test_impacts (c3CasesA ++ c3CasesB)).affects_lan = true ∧
    (analyze_test_impacts (c3CasesA ++ c3CasesB)).restarts_network = true ∧
    ((analyze_test_impacts (c3CasesA ++ c3CasesB)).affects_wan = true ∧
      (analyze_test_impacts (c3CasesA ++ c3CasesB)).affects_lan = true) :=
  ⟨(analyze_test_impacts_monotone c3CasesA c3CasesB).1 (by decide),
   (analyze_test_impacts_monotone c3CasesA c3CasesB).2.1 (by decide),
   (analyze_test_impacts_monotone c3CasesA c3CasesB).2.2.1 (by decide),
   (analyze_test_impacts_monotone c3CasesA c3CasesB).2.2.2
     ((analyze_test_impacts_monotone c3CasesA c3CasesB).2.2.1 (by decide))⟩

/-- C1: for every downloaded result document the implemented outcome
normalization agrees with the claim's deterministic case split, and on the
four concrete documents of the claim it yields Pass, Fail, Fail and Pass
respectively. -/
theorem normalizeOutcome_correct :
    (∀ doc : ResultDoc, normalizeOutcome doc = normalizeOutcomeClaim doc) ∧
    normalizeOutcome ⟨none, none, none, none, none, none⟩ = "Pass" ∧
    normalizeOutcome ⟨none, some false, none, none, none, none⟩ = "Fail" ∧
    normalizeOutcome ⟨none, none,
      some [⟨some "pass", none, none, none⟩, ⟨some "fail", none, none, none⟩],
      none, none, none⟩ = "Fail" ∧
    normalizeOutcome ⟨none, none, some [⟨some "PASS", none, none, none⟩],
      none, none, none⟩ = "Pass" := by
  refine ⟨?_, by decide, by decide, by decide, by decide⟩
  intro doc
  obtain ⟨ov, ps, tr, s₁, a₁, d₁⟩ := doc
  cases ov with
  | none =>
    cases ps with
    | some b => cases b <;> rfl
    | none =>
      cases tr with
      | none => rfl
      | some l =>
        cases l with
        | nil => rfl
        | cons c cs =>
          simp [normalizeOutcome, normalizeOutcomeClaim, normalizeFallbackClaim]
  | some s =>
    by_cases h1 : s = ""
    · subst h1
      cases ps with
      | some b => cases b <;> rfl
      | none =>
        cases tr with
        | none => rfl
        | some l =>
          cases l with
          | nil => rfl
          | cons c cs =>
            simp [normalizeOutcome, normalizeOutcomeClaim, normalizeFallbackClaim]
    · by_cases h2 : s = "Unknown"
      · subst h2
        cases ps with
        | some b => cases b <;> rfl
        | none =>
          cases tr with
          | none => rfl
          | some l =>
            cases l with
            | nil => rfl
            | cons c cs =>
              simp [normalizeOutcome, normalizeOutcomeClaim, normalizeFallbackClaim]
      · simp [normalizeOutcome, normalizeOutcomeClaim, h1, h2]

/-- C7: `connect` always tears down the prior session first — its result
does not depend on the pre-existing session state in any way — and it
returns `true` exactly when the transport-level connect succeeds and the
canary echo (stripped) equals `connection_test`; every exception and every
mismatch yields `false`, and no exception escapes to the caller (the
embedding is total). -/
theorem connect_correct (st st2 : ConnState) (host user pw : String) (env : ConnectEnv) :
    connect st host user pw env = connect st2 host user pw env ∧
    ((connect st host user pw env).1 = true ↔
      (env.connOk = true ∧ ∃ out, env.canary = some out ∧ pyStrip out = "connection_test")) := by
  constructor
  · rfl
  · unfold connect disconnect
    cases env with
    | mk connOk canary =>
      cases connOk
      · simp
      · cases canary with
        | none => simp
        | some out =>
          by_cases h : pyStrip out = "connection_test" <;> simp [h]

/-- C10: with the cached flag down or no stored client, `is_connected`
answers `false` immediately, leaves the state alone and consults no canary
(the result is identical under every canary oracle); when both are up and
the canary raises, the session is marked not-connected and `false` is
returned. -/
theorem is_connected_correct (st : ConnState) (c c2 : Option String) :
    ((st.connected = false ∨ st.hasClient = false) →
      is_connected st c = (false, st) ∧ is_connected st c = is_connected st c2) ∧
    (st.connected = true → st.hasClient = true → c = none →
      is_connected st c = (false, { st with connected := false })) := by
  constructor
  · intro h
    unfold is_connected
    rcases h with h | h <;> simp [h]
  · intro h1 h2 h3
    subst h3
    unfold is_connected
    simp [h1, h2]

/-- C10 witness: concrete evaluations of `is_connected` via
`is_connected_correct` at a cached-flag-down state and at a healthy state
whose canary raises. -/
theorem is_connected_correct_witness :
    (is_connected c10Down (some "keepalive") = (false, c10Down) ∧
      is_connected c10Down (some "keepalive") = is_connected c10Down none) ∧
    is_connected c10Up none = (false, { c10Up with connected := false }) :=
  ⟨(is_connected_correct c10Down (some "keepalive") none).1 (Or.inl rfl),
   (is_connected_correct c10Up none none).2 rfl rfl rfl⟩

/-- C4: after the first timeout-class execution error the loop marks the
session not-connected, and the next iteration's `is_connected` guard
returns `(False, "", "Not connected")` without ever re-executing the
command — the result is identical whether a second attempt would have
succeeded (`c4Env`) or failed (`c4EnvAlt`), so the claimed up-to-2 command
retries never happen. -/
theorem execute_command_timeout_no_retry :
    execute_command c4Env c4State =
      (some (false, "", "Not connected"),
        { hasClient := true, connected := false, hostname := some "h",
          username := some "u", password := some "p" }) ∧
    execute_command c4EnvAlt c4State = execute_command c4Env c4State := by
  constructor <;> decide

/-- Any artifact returned by the polling loop was returned by the body of
one of its iterations. -/
theorem waitLoop_found_pollIter (rd : String) (ifs : List String)
    (lts : Option String) (steps : List LocStep) (rc : Nat) (p f : String)
    (h : waitLoop rd ifs lts steps rc = .found p f) :
    ∃ step ∈ steps, pollIter rd ifs lts step = .found p f := by
  induction steps generalizing rc with
  | nil => simp [waitLoop] at h
  | cons step rest ih =>
    cases hpi : pollIter rd ifs lts step with
    | found p2 f2 =>
      simp only [waitLoop, hpi] at h
      split at h
      · injection h with h1 h2
        subst h1; subst h2
        exact ⟨step, List.mem_cons_self step rest, hpi⟩
      · split at h
        · obtain ⟨s, hs, hp⟩ := ih _ h
          exact ⟨s, List.mem_cons_of_mem _ hs, hp⟩
        · split at h
          · injection h with h1 h2
            subst h1; subst h2
            exact ⟨step, List.mem_cons_self step rest, hpi⟩
          · obtain ⟨s, hs, hp⟩ := ih _ h
            exact ⟨s, List.mem_cons_of_mem _ hs, hp⟩
    | skip =>
      simp only [waitLoop, hpi] at h
      repeat' split at h
      all_goals first
        | simp at h
        | (obtain ⟨s, hs, hp⟩ := ih _ h; exact ⟨s, List.mem_cons_of_mem _ hs, hp⟩)
    | bottom =>
      simp only [waitLoop, hpi] at h
      repeat' split at h
      all_goals first
        | simp at h
        | (obtain ⟨s, hs, hp⟩ := ih _ h; exact ⟨s, List.mem_cons_of_mem _ hs, hp⟩)

/-- A new-candidate verdict on a path that was present in the initial
snapshot can only come from the timestamp promotion: both timestamps exist
and the candidate one is strictly greater. -/
theorem isNewCandidate_mem (ifs : List String) (lts : Option String) (fp fn : String)
    (h : isNewCandidate ifs lts fp fn = true) (hc : ifs.contains fp = true) :
    tsLt lts (extractTs fn) = true := by
  unfold isNewCandidate at h
  unfold tsLt
  cases lts with
  | none =>
    cases ht : extractTs fn with
    | none => rw [ht, hc] at h; simp at h
    | some ts => rw [ht, hc] at h; simp at h
  | some lt =>
    cases ht : extractTs fn with
    | none => rw [ht, hc] at h; simp at h
    | some ts =>
      rw [ht, hc] at h
      simpa using h

/-- An iteration that returns an artifact passed the stability check, and
the artifact was judged new by `isNewCandidate`. -/
theorem pollIter_found (rd : String) (ifs : List String) (lts : Option String)
    (step : LocStep) (p f : String)
    (h : pollIter rd ifs lts step = .found p f) :
    verifyFileReady step = true ∧
      (ifs.contains p = true → tsLt lts (extractTs f) = true) := by
  unfold pollIter at h
  cases hls : step.lsOut with
  | none =>
    rw [hls] at h
    exact absurd h (by simp)
  | some info =>
    rw [hls] at h
    dsimp only at h
    by_cases h1 : (pyStrip info == "") = true
    · rw [if_pos h1] at h
      exact absurd h (by simp)
    · rw [if_neg h1] at h
      by_cases h2 : isNewCandidate ifs lts
          (rd ++ "/" ++ (pySplitWs (pyStrip info)).getLastD "")
          ((pySplitWs (pyStrip info)).getLastD "") = true
      · rw [if_pos h2] at h
        by_cases h3 : verifyFileReady step = true
        · rw [if_pos h3] at h
          injection h with hp1 hp2
          subst hp1; subst hp2
          exact ⟨h3, fun hc => isNewCandidate_mem _ _ _ _ h2 hc⟩
        · rw [if_neg h3] at h
          exact absurd h (by simp)
      · rw [if_neg h2] at h
        exact absurd h (by simp)

/-- A passed `_verify_file_ready` decomposes into the existence probe and
the agreement of the two size reads. -/
theorem verifyFileReady_parts (step : LocStep) (h : verifyFileReady step = true) :
    step.existsOk = true ∧ sizeReadsAgree step = true := by
  unfold verifyFileReady at h
  unfold sizeReadsAgree
  cases h1 : step.sizeRead1 with
  | none => rw [h1] at h; simp at h
  | some s1 =>
    rw [h1] at h
    cases h2 : step.sizeRead2 with
    | none => rw [h2] at h; simp at h
    | some s2 =>
      rw [h2] at h
      simp only [Bool.and_eq_true] at h
      simp [h.1, h.2.1, h.2.2]

/-- C2 (amended): whenever the locator returns an artifact whose path was
present in the initial snapshot, the timestamp suffix embedded in its
filename strictly exceeds `latest_timestamp` — the suffix extracted from
the lexicographically greatest path of the snapshot (not the greatest
suffix over the whole snapshot); an artifact absent from the snapshot may
be returned freely. -/
theorem wait_snapshot_needs_newer_timestamp (resultDir : String)
    (initialFiles : List String) (steps : List LocStep) (p f : String)
    (h : wait_for_result_file resultDir initialFiles steps = .found p f)
    (hp : p ∈ initialFiles) :
    tsLt (computeLatestTimestamp initialFiles) (extractTs f) = true := by
  obtain ⟨step, hs, hpi⟩ := waitLoop_found_pollIter _ _ _ _ _ _ _ h
  exact (pollIter_found _ _ _ _ _ _ hpi).2 (List.elem_iff.mpr hp)

/-- C2 witness: a concrete run in which a snapshot artifact is returned;
its timestamp strictly exceeds the extracted `latest_timestamp`, as
`wait_snapshot_needs_newer_timestamp` guarantees. -/
theorem wait_snapshot_needs_newer_timestamp_witness :
    tsLt (computeLatestTimestamp c2Snapshot) (extractTs "t_20250101_000000.json") = true :=
  wait_snapshot_needs_newer_timestamp "/res" c2Snapshot [c2Step]
    "/res/t_20250101_000000.json" "t_20250101_000000.json" (by decide) (by decide)

/-- C2 counterexample to the claim as stated: with a snapshot whose
lexicographically greatest path carries the older embedded timestamp, the
locator returns a snapshot artifact whose timestamp suffix does NOT
strictly exceed the greatest timestamp suffix extracted from the snapshot
(it equals it), because lines 46-57 extract `latest_timestamp` from the
greatest path, not the greatest suffix. -/
theorem wait_snapshot_claim_counterexample :
    wait_for_result_file "/res" c2Snapshot [c2Step] =
      .found "/res/t_20250101_000000.json" "t_20250101_000000.json" ∧
    "/res/t_20250101_000000.json" ∈ c2Snapshot ∧
    maxTimestampSuffix c2Snapshot = some "20250101_000000" ∧
    extractTs "t_20250101_000000.json" = some "20250101_000000" ∧
    tsLt (maxTimestampSuffix c2Snapshot) (extractTs "t_20250101_000000.json") = false := by
  exact ⟨by decide, by decide, by decide, by decide, by decide⟩

/-- C6: whenever the locator returns an artifact, the iteration that
returned it passed the existence probe and saw two successful size reads
(1 second apart in the source) that agreed after stripping; an artifact
with disagreeing or failing size reads is never returned. -/
theorem wait_found_implies_stable (resultDir : String) (initialFiles : List String)
    (steps : List LocStep) (p f : String)
    (h : wait_for_result_file resultDir initialFiles steps = .found p f) :
    steps.any (fun step =>
      decide (pollIter resultDir initialFiles (computeLatestTimestamp initialFiles) step
          = .found p f)
        && step.existsOk && sizeReadsAgree step) = true := by
  obtain ⟨step, hs, hpi⟩ := waitLoop_found_pollIter _ _ _ _ _ _ _ h
  have hv := pollIter_found _ _ _ _ _ _ hpi
  have hparts := verifyFileReady_parts step hv.1
  rw [List.any_eq_true]
  exact ⟨step, hs, by simp [hpi, hparts.1, hparts.2]⟩

/-- C6 witness: a concrete run returning a fresh artifact, via
`wait_found_implies_stable`. -/
theorem wait_found_implies_stable_witness :
    [c6Step].any (fun step =>
      decide (pollIter "/res" ([] : List String) (computeLatestTimestamp []) step
          = .found "/res/base_20250605_141606.json" "base_20250605_141606.json")
        && step.existsOk && sizeReadsAgree step) = true :=
  wait_found_implies_stable "/res" [] [c6Step] "/res/base_20250605_141606.json"
    "base_20250605_141606.json" (by decide)

/-- Recording statuses for `len + 1` jobs from `i` starts by recording
job `i`. -/
theorem applyStatuses_succ (env : BatchEnv) (statuses : List JobStatus) (i len : Nat) :
    applyStatuses env statuses i (len + 1) =
      applyStatuses env (statuses.set i (env.procStatus i)) (i + 1) len := by
  simp [applyStatuses, List.range']

/-- The log fragment of `len + 1` jobs from `i` starts with the record of
job `i` when one is persisted. -/
theorem persistLog_succ (env : BatchEnv) (i len : Nat) :
    persistLog env i (len + 1) =
      (match env.procPersist i with
        | some r => (i, r) :: persistLog env (i + 1) len
        | none => persistLog env (i + 1) len) := by
  cases h : env.procPersist i <;> simp [persistLog, List.range', h]

/-- Entries of the status table beyond every recorded index are
untouched. -/
theorem applyStatuses_get_high (env : BatchEnv) (j : Nat) :
    ∀ (len s : Nat) (statuses : List JobStatus), s + len ≤ j →
      (applyStatuses env statuses s len).get? j = statuses.get? j := by
  intro len
  induction len with
  | zero => intro s statuses _; simp [applyStatuses, List.range']
  | succ len ih =>
    intro s statuses h
    rw [applyStatuses_succ, ih (s + 1) _ (by omega)]
    simp [List.get?_eq_getElem?, List.getElem?_set_ne (by omega : s ≠ j)]

/-- Unrolled run of the batch loop: with the connection alive and
processing uncancelled before job `N`, dead at the boundary after job `N`
and every reconnection attempt failing there, the loop processes exactly
jobs `i .. N` and then stops. -/
theorem processFrom_eq (env : BatchEnv) (n N : Nat)
    (hN : N + 1 < n)
    (hAlive : ∀ j, j < N → env.aliveAfter j = true)
    (hProc : ∀ j, j < N → env.processing j = true)
    (hDead : env.aliveAfter N = false)
    (hR1 : env.reconnectOk N 1 = false) (hR2 : env.reconnectOk N 2 = false)
    (hR3 : env.reconnectOk N 3 = false) :
    ∀ (k i : Nat) (statuses : List JobStatus) (log : List (Nat × String)),
      i + k = N →
      processFrom env n i statuses log =
        (applyStatuses env statuses i (k + 1), log ++ persistLog env i (k + 1)) := by
  intro k
  induction k with
  | zero =>
    intro i statuses log hik
    have hiN : i = N := by omega
    subst hiN
    unfold processFrom
    rw [dif_pos (by omega : i < n), if_pos (by omega : i + 1 < n)]
    rw [hDead, hR1, hR2, hR3]
    simp only [Bool.or_self, Bool.false_or, Bool.or_false, if_false]
    rw [applyStatuses_succ, persistLog_succ]
    cases h : env.procPersist i <;>
      simp [applyStatuses, persistLog, List.range', h]
  | succ k ih =>
    intro i statuses log hik
    have hiN : i < N := by omega
    unfold processFrom
    rw [dif_pos (by omega : i < n), if_pos (by omega : i + 1 < n)]
    rw [hAlive i hiN]
    simp only [Bool.true_or, if_true]
    rw [hProc i hiN]
    simp only [if_true]
    rw [ih (i + 1) _ _ (by omega)]
    rw [applyStatuses_succ env statuses i (k + 1), persistLog_succ env i (k + 1)]
    cases h : env.procPersist i <;> simp [h]

/-- C5: if the connection is found dead at the boundary after job `N` and
all three reconnection attempts fail, while every earlier boundary was
healthy and uncancelled, then the batch stops: every job beyond `N` is
still `Queued`, and the persisted log consists exactly of the records of
jobs `0 .. N` — in particular the already-persisted outcome of job `N` is
unchanged and no later job is marked `Error`. -/
theorem batch_stops_when_reconnect_fails (env : BatchEnv) (n N : Nat)
    (hN : N + 1 < n)
    (hAlive : ∀ j, j < N → env.aliveAfter j = true)
    (hProc : ∀ j, j < N → env.processing j = true)
    (hDead : env.aliveAfter N = false)
    (hR1 : env.reconnectOk N 1 = false) (hR2 : env.reconnectOk N 2 = false)
    (hR3 : env.reconnectOk N 3 = false) :
    (∀ j, N < j → j < n →
      (processFrom env n 0 (List.replicate n JobStatus.Queued) []).1.get? j =
        some JobStatus.Queued) ∧
    (processFrom env n 0 (List.replicate n JobStatus.Queued) []).2 =
      persistLog env 0 (N + 1) := by
  have hrun := processFrom_eq env n N hN hAlive hProc hDead hR1 hR2 hR3 N 0
    (List.replicate n JobStatus.Queued) [] (by omega)
  rw [hrun]
  constructor
  · intro j hNj hjn
    rw [applyStatuses_get_high env j (N + 1) 0 _ (by omega)]
    simp [List.get?_eq_getElem?, List.getElem?_replicate, hjn]
  · simp

/-- C5 witness: with two queued jobs and the boundary after job 0 dead with
all reconnections failing, job 1 stays `Queued` and the log holds exactly
the record of job 0. -/
theorem batch_stops_when_reconnect_fails_witness :
    (processFrom c5Env 2 0 (List.replicate 2 JobStatus.Queued) []).1.get? 1 =
      some JobStatus.Queued ∧
    (processFrom c5Env 2 0 (List.replicate 2 JobStatus.Queued) []).2 = [(0, "Pass")] :=
  ⟨(batch_stops_when_reconnect_fails c5Env 2 0 (by decide)
      (fun j hj => absurd hj (Nat.not_lt_zero j))
      (fun j hj => absurd hj (Nat.not_lt_zero j)) rfl rfl rfl rfl).1 1
      (by decide) (by decide),
   ((batch_stops_when_reconnect_fails c5Env 2 0 (by decide)
      (fun j hj => absurd hj (Nat.not_lt_zero j))
      (fun j hj => absurd hj (Nat.not_lt_zero j)) rfl rfl rfl rfl).2).trans
      (by decide)⟩

/-- C8 counterexample to the claim as stated: for a document whose
top-level `service` is absent, the persisted record does NOT carry the
document-supplied action and details — `save_test_case_results` rewrites
the `unknown`-service synthetic case from the file name. -/
theorem persistEmptyCase_counterexample :
    persistEmptyCase "svc_act.json" c8Doc (normalizeOutcome c8Doc) ≠
      [{ service := "unknown", action := "reboot",
         status := "pass", details := "device ok" }] ∧
    persistEmptyCase "svc_act.json" c8Doc (normalizeOutcome c8Doc) =
      [{ service := "svc", action := "act", status := "pass",
         details := "svc act completed successfully" }] := by
  constructor <;> decide

/-- C8 (amended): for a job whose downloaded document has an empty or
absent `test_results` list, exactly one per-case record is persisted; its
status is `pass` exactly when the computed overall result contains `Pass`;
it carries the document-supplied service/action/details exactly when the
document-supplied service is present and differs from `unknown`, and
otherwise the store rewrites service and action from the submitted file
name and synthesizes the details message. -/
theorem persistEmptyCase_correct (file_name : String) (doc : ResultDoc)
    (overall : String) :
    (persistEmptyCase file_name doc overall).length = 1 ∧
    (∀ s, doc.service = some s → s ≠ "unknown" →
      persistEmptyCase file_name doc overall =
        [{ service := s, action := doc.action.getD "",
           status := if strContains overall "Pass" then "pass" else "fail",
           details := doc.details.getD "" }]) ∧
    ((doc.service = none ∨ doc.service = some "unknown") →
      persistEmptyCase file_name doc overall =
        [{ service := (defaultServiceAction file_name).1,
           action := (defaultServiceAction file_name).2,
           status := if strContains overall "Pass" then "pass" else "fail",
           details := (defaultServiceAction file_name).1 ++ " " ++
             (defaultServiceAction file_name).2 ++ " " ++
             (if strContains overall "Pass" then "completed successfully"
              else "failed") }]) := by
  refine ⟨?_, ?_, ?_⟩
  · simp [persistEmptyCase, save_test_case_results]
  · intro s hs hne
    simp [persistEmptyCase, save_test_case_results, syntheticCase, adjustCase, hs, hne]
  · intro hsvc
    by_cases hp : strContains overall "Pass" = true
    · rcases hsvc with h | h <;>
        simp [persistEmptyCase, save_test_case_results, syntheticCase, adjustCase, h, hp]
    · rcases hsvc with h | h <;>
        simp [persistEmptyCase, save_test_case_results, syntheticCase, adjustCase, h, hp]

/-- C8 witness: a document with service `wan` keeps its own fields in the
single persisted record, via `persistEmptyCase_correct`. -/
theorem persistEmptyCase_correct_witness :
    persistEmptyCase "router.json" c8DocNamed "Pass" =
      [{ service := "wan", action := "check", status := "pass", details := "fine" }] :=
  ((persistEmptyCase_correct "router.json" c8DocNamed "Pass").2.1 "wan" rfl
    (by decide)).trans (by decide)

/-- C9: a parsed JSON object lacking the `test_cases` key fails validation
with the missing-`test_cases` error and no parsed data is returned;
`validate_json_file` is a pure function of the local file alone, so no
remote/network operation happens for any input. -/
theorem validate_json_file_missing_cases (d : TestDoc) (h : d.test_cases = none) :
    validate_json_file (.parsed d) = (false, "Missing \x27test_cases\x27 section", none) := by
  unfold validate_json_file
  dsimp only
  rw [h]

/-- C9 witness: the empty JSON object fails validation with the
missing-`test_cases` error. -/
theorem validate_json_file_missing_cases_witness :
    validate_json_file (.parsed ⟨none⟩) =
      (false, "Missing \x27test_cases\x27 section", none) :=
  validate_json_file_missing_cases ⟨none⟩ rfl
